import Mathlib

/-!
Verification of the huutonet-client library (src/huuto.py) against its
natural-language specification.  The Python source is shallowly embedded:
pure validation logic becomes Lean functions, the network is represented by
the response data a call would receive, and raised exceptions become values
of an error type.
-/

namespace Huuto

/-! ## Error taxonomy (src/huuto.py lines 24-45)

`ApiError` and its five subclasses, as raised by `validate_response`.
The constructor `apiError` stands for the base class raised directly. -/

inductive ApiErrorKind where
  | apiBadRequest
  | apiUnauthorized
  | apiForbidden
  | apiNotFound
  | apiNotImplemented
  | apiError
deriving DecidableEq, Repr

/-- Python-level exceptions the library can raise: the Api errors of the
transport layer, `ValueError` / `TypeError` from parameter validation, and
the `AttributeError` that `authenticate` hits when the userid regex finds
no match. -/
inductive PyError where
  | api (k : ApiErrorKind)
  | valueError (msg : String)
  | typeError (msg : String)
  | attributeError
deriving DecidableEq, Repr

/-! ## Response validation (src/huuto.py lines 263-297)

`validate_response(resp, accepted_status_codes)` raises on the first
matching check.  The checks for 400/401/403/404/501 are NOT guarded by
membership in `accepted_status_codes`; only the final generic check is.
(The `pprint` debugging block at lines 281-284 produces output only and is
not modelled.)  A raised exception aborts the function, so the sequence of
`if` statements is an if/else chain. -/
def validate_response (status : Nat) (accepted_status_codes : List Nat) :
    Option ApiErrorKind :=
  if status = 400 then some .apiBadRequest
  else if status = 401 then some .apiUnauthorized
  else if status = 403 then some .apiForbidden
  else if status = 404 then some .apiNotFound
  else if status = 501 then some .apiNotImplemented
  else if status ∉ accepted_status_codes then some .apiError
  else none

/-- The status-code-to-error-kind table of the specification (section 4.3):
400 BadRequest, 401 Unauthorized, 403 Forbidden, 404 NotFound,
501 NotImplemented, anything else the generic error. -/
def statusErrorKind (status : Nat) : ApiErrorKind :=
  if status = 400 then .apiBadRequest
  else if status = 401 then .apiUnauthorized
  else if status = 403 then .apiForbidden
  else if status = 404 then .apiNotFound
  else if status = 501 then .apiNotImplemented
  else .apiError

/-! ## The accepted_status_codes argument of get/post/put/delete

Each transport function declares `accepted_status_codes=False` and replaces
any falsy value with `[200]`:
  `if not accepted_status_codes: accepted_status_codes = [200]`
(lines 128-129, 171-172, 217-218, 250-251).  A caller can pass `False`
(the default, i.e. the argument omitted), `None`, or a list; `False`,
`None` and the empty list are all falsy in Python. -/

inductive AcceptedArg where
  | pyNone
  | pyFalse
  | pyList (codes : List Nat)
deriving DecidableEq, Repr

/-- Python truthiness of the accepted_status_codes argument. -/
def acceptedTruthy : AcceptedArg → Bool
  | .pyList codes => !codes.isEmpty
  | _ => false

def acceptedCodesOf : AcceptedArg → List Nat
  | .pyList codes => codes
  | _ => []

/-- The two-line normalization shared by all four transport functions. -/
def resolveAccepted (a : AcceptedArg) : List Nat :=
  if acceptedTruthy a = false then [200] else acceptedCodesOf a

/-- Lines 128-129: the accepted set `get` actually validates against. -/
def get_accepted_codes (accepted_status_codes : AcceptedArg) : List Nat :=
  resolveAccepted accepted_status_codes

/-- Lines 171-172: the accepted set `post` actually validates against. -/
def post_accepted_codes (accepted_status_codes : AcceptedArg) : List Nat :=
  resolveAccepted accepted_status_codes

/-- Lines 217-218: the accepted set `put` actually validates against. -/
def put_accepted_codes (accepted_status_codes : AcceptedArg) : List Nat :=
  resolveAccepted accepted_status_codes

/-- Lines 250-251: the accepted set `delete` actually validates against. -/
def delete_accepted_codes (accepted_status_codes : AcceptedArg) : List Nat :=
  resolveAccepted accepted_status_codes

/-! ## Claims C1, C2, C9 -/

/-- C1 counterexample: the claim says a status code in the caller-supplied
accepted set never raises, explicitly including 400.  But with
`accepted_status_codes = [400]` and a 400 response, `validate_response`
still raises `ApiBadRequestError`: the five specific checks ignore the
accepted set. -/
theorem c1_counterexample :
    (400 ∈ ([400] : List Nat)) ∧
      validate_response 400 [400] = some ApiErrorKind.apiBadRequest := by
  decide

/-- C1 (amended): a status code in the caller-supplied accepted set raises
no error provided it is not one of 400, 401, 403, 404, 501; those five
codes raise their kinded error regardless of the accepted set. -/
theorem c1_accepted_short_circuit (status : Nat) (accepted : List Nat)
    (hmem : status ∈ accepted)
    (hspec : status ∉ ([400, 401, 403, 404, 501] : List Nat)) :
    validate_response status accepted = none := by
  simp only [List.mem_cons, List.not_mem_nil, or_false, not_or] at hspec
  obtain ⟨h400, h401, h403, h404, h501⟩ := hspec
  simp [validate_response, h400, h401, h403, h404, h501, hmem]

/-- C1 witness: 201 accepted alongside 200 raises no error. -/
theorem c1_witness :
    (201 ∈ ([200, 201] : List Nat)) ∧
      validate_response 201 [200, 201] = none :=
  ⟨by decide, c1_accepted_short_circuit 201 [200, 201] (by decide) (by decide)⟩

/-- C2: a response status outside the accepted set raises exactly the error
of the corresponding kind: ApiBadRequestError for 400, ApiUnauthorizedError
for 401, ApiForbiddenError for 403, ApiNotFoundError for 404,
ApiNotImplementedError for 501, and the generic ApiError otherwise. -/
theorem c2_unaccepted_raises_kinded (status : Nat) (accepted : List Nat)
    (h : status ∉ accepted) :
    validate_response status accepted = some (statusErrorKind status) := by
  simp only [validate_response, statusErrorKind]
  split_ifs <;> simp_all

/-- C2 witness: a 404 response against the default accepted set [200]
raises the NotFound kind. -/
theorem c2_witness :
    (404 ∉ ([200] : List Nat)) ∧
      validate_response 404 [200] = some (statusErrorKind 404) :=
  ⟨by decide, c2_unaccepted_raises_kinded 404 [200] (by decide)⟩

/-- C9: in all four transport functions, an empty accepted list is treated
exactly like the omitted argument (the default `False`) and like `None`:
every falsy value is replaced by the default `[200]`, so an empty accepted
set never makes every status code an error. -/
theorem c9_falsy_accepted_defaults :
    get_accepted_codes (.pyList []) = [200] ∧
      get_accepted_codes .pyFalse = [200] ∧
      get_accepted_codes .pyNone = [200] ∧
      post_accepted_codes (.pyList []) = [200] ∧
      post_accepted_codes .pyFalse = [200] ∧
      post_accepted_codes .pyNone = [200] ∧
      put_accepted_codes (.pyList []) = [200] ∧
      put_accepted_codes .pyFalse = [200] ∧
      put_accepted_codes .pyNone = [200] ∧
      delete_accepted_codes (.pyList []) = [200] ∧
      delete_accepted_codes .pyFalse = [200] ∧
      delete_accepted_codes .pyNone = [200] := by
  decide

/-! ## Authentication (src/huuto.py lines 334-378)

`authenticate()` reads the persisted token record, parses its expiry
timestamp and compares it with the current UTC time.  Only when the token
is expired does it POST username/password to `/authentication` (accepted
status codes `[200, 201]`), extract the userid from the `links.user` URL of
the response with the regex `/([0-9]{3,8})`, write the new record to the
config file via `update_token`, and finally return the (possibly new)
token from the config file.  The `print` calls are output only and the
dateutil timestamp parsing is abstracted: the record and the response
carry the parsed instants as integers. -/

/-- The persisted `[token]` section of the config file.  `expires` and
`start_time` hold the parsed timestamp instants. -/
structure TokenRecord where
  userid : String
  token : String
  start_time : Int
  expires : Int
deriving DecidableEq, Repr

/-- The data relevant to the POST `/authentication` exchange: the HTTP
status code and, for a success body, the token id, start time, expiry and
the `links.user` URL the userid is scraped from. -/
structure ExchangeResponse where
  status : Nat
  token_id : String
  startTime : Int
  expires : Int
  userLink : String
deriving DecidableEq, Repr

/-- Value of one digit character. -/
def digitVal (c : Char) : Nat := c.toNat - 48

/-- The maximal run of leading digits of a character list. -/
def digitRun : List Char → List Char
  | [] => []
  | c :: cs => if c.isDigit then c :: digitRun cs else []

/-- `re.search` for the pattern `/([0-9]{3,8})` (line 368): the first
slash followed by at least three digits wins; the capture takes greedily
up to eight digits. -/
def searchUserid : List Char → Option String
  | [] => none
  | c :: cs =>
    if c = '/' then
      let run := digitRun cs
      if 3 ≤ run.length then some (String.mk (run.take 8))
      else searchUserid cs
    else searchUserid cs

/-- Everything observable about one `authenticate()` call: the returned
token or the propagated exception, the token record afterwards, how many
POSTs to `/authentication` were made, and whether the config file was
written. -/
structure AuthResult where
  outcome : Except PyError String
  record : TokenRecord
  exchanges : Nat
  wrote_config : Bool
deriving Repr

/-- Lines 334-378.  `now` is the current UTC instant, `rec` the persisted
token record, and `resp` the response the POST to `/authentication` would
receive.  A failed exchange propagates the `validate_response` error of the
POST; on success the userid regex is applied (raising `AttributeError`
when it finds no match, since `match.group` is called on `None`) and the
new record is persisted. -/
def authenticate (now : Int) (rec : TokenRecord) (resp : ExchangeResponse) :
    AuthResult :=
  if rec.expires < now then
    match validate_response resp.status [200, 201] with
    | some e =>
        { outcome := .error (.api e), record := rec, exchanges := 1
          wrote_config := false }
    | none =>
        match searchUserid resp.userLink.data with
        | none =>
            { outcome := .error .attributeError, record := rec, exchanges := 1
              wrote_config := false }
        | some uid =>
            let newRec : TokenRecord :=
              { userid := uid, token := resp.token_id
                start_time := resp.startTime, expires := resp.expires }
            { outcome := .ok newRec.token, record := newRec, exchanges := 1
              wrote_config := true }
  else
    { outcome := .ok rec.token, record := rec, exchanges := 0
      wrote_config := false }

/-! ## Claims C3, C4 -/

/-- C3: when the persisted expiry is not earlier than the current UTC time,
`authenticate` performs no credential exchange (zero POSTs to
`/authentication`), does not write the config file, and returns the
persisted token unchanged. -/
theorem c3_valid_token_no_exchange (now : Int) (rec : TokenRecord)
    (resp : ExchangeResponse) (h : ¬ rec.expires < now) :
    authenticate now rec resp =
      { outcome := .ok rec.token, record := rec, exchanges := 0
        wrote_config := false } := by
  unfold authenticate
  rw [if_neg h]

def c3Rec : TokenRecord :=
  { userid := "12345", token := "abcd", start_time := 0, expires := 100 }

def c3Resp : ExchangeResponse :=
  { status := 201, token_id := "efgh", startTime := 50, expires := 200
    userLink := "https://api.huuto.net/1.1/users/12345" }

/-- C3 witness: with expiry 100 and current time 50, the stored token is
returned and nothing is exchanged or written. -/
theorem c3_witness :
    authenticate 50 c3Rec c3Resp =
      { outcome := .ok "abcd", record := c3Rec, exchanges := 0
        wrote_config := false } :=
  c3_valid_token_no_exchange 50 c3Rec c3Resp (by decide)

/-- C4: when the token is expired and the credential exchange answers with
a status other than 200 or 201, `authenticate` fails with the typed error
for that status (the realization of the specification `AuthError`), after
exactly one exchange attempt, and the config file is not written (no retry,
no backoff). -/
theorem c4_failed_exchange_errors_once (now : Int) (rec : TokenRecord)
    (resp : ExchangeResponse) (hexp : rec.expires < now)
    (h200 : resp.status ≠ 200) (h201 : resp.status ≠ 201) :
    authenticate now rec resp =
      { outcome := .error (.api (statusErrorKind resp.status)), record := rec
        exchanges := 1, wrote_config := false } := by
  have hval : validate_response resp.status [200, 201] =
      some (statusErrorKind resp.status) := by
    simp only [validate_response, statusErrorKind]
    split_ifs <;> simp_all
  unfold authenticate
  rw [if_pos hexp, hval]

def c4Resp : ExchangeResponse :=
  { status := 400, token_id := "", startTime := 0, expires := 0
    userLink := "" }

/-- C4 witness: with an expired token (expiry 100, current time 200) and a
400 answer from `/authentication`, the call fails with the BadRequest kind
after one attempt and writes nothing. -/
theorem c4_witness :
    authenticate 200 c3Rec c4Resp =
      { outcome := .error (.api (statusErrorKind 400)), record := c3Rec
        exchanges := 1, wrote_config := false } :=
  c4_failed_exchange_errors_once 200 c3Rec c4Resp (by decide) (by decide)
    (by decide)

/-! ## Python truthiness and coercion helpers

`create_item` and `list_items` guard many checks with bare truthiness
(`if x:`) and coerce monetary fields with `float(x) if x else None`
(lines 550-553, 888-890): `None`, `0`, `0.0`, the empty string and the
empty list are all falsy. -/

def truthyOptStr : Option String → Bool
  | some s => !s.isEmpty
  | none => false

def truthyOptInt : Option Int → Bool
  | some n => n != 0
  | none => false

def truthyOptRat : Option Rat → Bool
  | some x => x != 0
  | none => false

def truthyOptList : Option (List String) → Bool
  | some l => !l.isEmpty
  | none => false

/-- `float(x) if x else None`: a missing or zero monetary value becomes
`None`, any other number is kept (as a rational). -/
def coerceMoney : Option Rat → Option Rat
  | some x => if x = 0 then none else some x
  | none => none

/-! ## time.strptime with format Y-m-d H:M:S (lines 574 and 597)

CPython compiles the format into the regex
`(?P<Y>dddd)-(?P<m>1[0-2]|0[1-9]|[1-9])-(?P<d>3[01]|[12]d|0[1-9]|[1-9])`
`s+(?P<H>2[0-3]|[0-1]d|d):(?P<M>[0-5]d|d):(?P<S>6[0-1]|[0-5]d|d)`
anchored at the start, requires the match to consume the whole string, and
afterwards constructs a `datetime.date`, which additionally demands
year >= 1 and a day that exists in the given month.  Each numeric group
prefers two digits and falls back to one. -/

/-- Exactly four digits (the year group). -/
def parseYear4 : List Char → Option (Nat × List Char)
  | a :: b :: c :: d :: rest =>
    if a.isDigit && b.isDigit && c.isDigit && d.isDigit then
      some ((digitVal a * 10 + digitVal b) * 100 + digitVal c * 10 + digitVal d,
        rest)
    else none
  | _ => none

/-- A numeric group matching one or two digits: two digits are tried first
(accepted when the value lies in `lo..hi`), then a single digit (accepted
when at least `lo`), mirroring the alternation order and backtracking of
the compiled regex. -/
def parseNum2or1 (lo hi : Nat) (cs : List Char)
    (k : Nat → List Char → Bool) : Bool :=
  match cs with
  | a :: b :: rest =>
    if a.isDigit && b.isDigit then
      (decide (lo ≤ digitVal a * 10 + digitVal b) &&
        decide (digitVal a * 10 + digitVal b ≤ hi) &&
        k (digitVal a * 10 + digitVal b) rest) ||
      (decide (lo ≤ digitVal a) && k (digitVal a) (b :: rest))
    else if a.isDigit then
      decide (lo ≤ digitVal a) && k (digitVal a) (b :: rest)
    else false
  | [a] => if a.isDigit then decide (lo ≤ digitVal a) && k (digitVal a) [] else false
  | [] => false

def expectChar (c : Char) : List Char → Option (List Char)
  | x :: xs => if x = c then some xs else none
  | [] => none

def leapYear (y : Nat) : Bool :=
  y % 4 = 0 && (y % 100 != 0 || y % 400 = 0)

def daysInMonth (y m : Nat) : Nat :=
  if m = 2 then (if leapYear y then 29 else 28)
  else if m = 4 ∨ m = 6 ∨ m = 9 ∨ m = 11 then 30
  else 31

def matchDateChars (cs : List Char) : Bool :=
  match parseYear4 cs with
  | none => false
  | some (y, cs) =>
    match expectChar '-' cs with
    | none => false
    | some cs =>
      parseNum2or1 1 12 cs (fun m cs =>
        match expectChar '-' cs with
        | none => false
        | some cs =>
          parseNum2or1 1 31 cs (fun d cs =>
            match cs with
            | [] => false
            | c :: cs =>
              if c.isWhitespace then
                parseNum2or1 0 23 (cs.dropWhile Char.isWhitespace) (fun _ cs =>
                  match expectChar ':' cs with
                  | none => false
                  | some cs =>
                    parseNum2or1 0 59 cs (fun _ cs =>
                      match expectChar ':' cs with
                      | none => false
                      | some cs =>
                        parseNum2or1 0 61 cs (fun _ cs =>
                          cs.isEmpty && decide (1 ≤ y) &&
                            decide (d ≤ daysInMonth y m))))
              else false))

/-- Whether `time.strptime(s, fmt)` succeeds for the fixed date pattern of
`create_item` (so the `except ValueError` branch is NOT taken). -/
def matchesDateFormat (s : String) : Bool :=
  matchDateChars s.data

/-! ## Request payload values

Values placed into the request body or query parameters: strings, integers,
floats (as rationals) and string lists. -/
inductive PyVal where
  | s (v : String)
  | i (v : Int)
  | r (v : Rat)
  | strs (v : List String)
deriving DecidableEq, Repr

/-- Drop all entries whose value is `None`.  This is the dict
comprehension `data = {k: v for k, v in data.items() if v is not None}`
of `create_item`/`edit_item` (lines 687, 746); the `requests` library
applies the same rule to query parameters, omitting `None`-valued entries
from the URL it builds. -/
def dropNones (l : List (String × Option PyVal)) : List (String × PyVal) :=
  l.filterMap (fun kv => kv.2.map (fun v => (kv.1, v)))

/-- Whether key `k` is carried with a non-`None` value somewhere in the
parameter list, i.e. whether `k` survives `dropNones`. -/
def keyHasValue (k : String) : List (String × Option PyVal) → Bool
  | [] => false
  | (k2, v) :: rest => ((k == k2) && v.isSome) || keyHasValue k rest

theorem mem_keys_dropNones (s : String) (l : List (String × Option PyVal)) :
    s ∈ (dropNones l).map Prod.fst ↔ keyHasValue s l = true := by
  induction l with
  | nil => simp [dropNones, keyHasValue]
  | cons kv rest ih =>
    obtain ⟨k2, v⟩ := kv
    cases v with
    | none =>
      have h1 : dropNones ((k2, (none : Option PyVal)) :: rest) =
          dropNones rest := rfl
      have h2 : keyHasValue s ((k2, (none : Option PyVal)) :: rest) =
          keyHasValue s rest := by
        simp [keyHasValue]
      rw [h1, h2]
      exact ih
    | some x =>
      have h1 : dropNones ((k2, some x) :: rest) = (k2, x) :: dropNones rest :=
        rfl
      rw [h1]
      simp only [List.map_cons, List.mem_cons, keyHasValue, Option.isSome_some,
        Bool.and_true, Bool.or_eq_true, beq_iff_eq, ih]

/-! ## The shared parameter set of create_item and edit_item

`create_item` (lines 483-489) and `edit_item` (lines 692-699) accept the
same twenty-six item parameters; each builds a request-body dict assigning
one key to each parameter (lines 657-684 and 716-743). -/

inductive ItemParam where
  | buyNowPrice
  | categoryId
  | closingTime
  | condition
  | deliveryMethods
  | deliveryTerms
  | description
  | identificationRequired
  | isLocationAbroad
  | listTime
  | marginalTax
  | minimumFeedback
  | minimumIncrease
  | offersAllowed
  | openDays
  | originalId
  | paymentMethods
  | paymentTerms
  | postalCode
  | quantity
  | republish
  | saleMethod
  | startingPrice
  | status
  | title
  | vat
deriving DecidableEq, Repr, Fintype

/-- The body key `create_item` assigns to each parameter (the dict at
lines 657-684).  The key for delivery methods really carries a trailing
space in the source. -/
def createItemKeyOf : ItemParam → String
  | .buyNowPrice => "buyNowPrice"
  | .categoryId => "categoryId"
  | .closingTime => "closingTime"
  | .condition => "condition"
  | .deliveryMethods => "deliveryMethods "
  | .deliveryTerms => "deliveryTerms"
  | .description => "description"
  | .identificationRequired => "identificationRequired"
  | .isLocationAbroad => "isLocationAbroad"
  | .listTime => "listTime"
  | .marginalTax => "marginalTax"
  | .minimumFeedback => "minimumFeedback"
  | .minimumIncrease => "minimumIncrease"
  | .offersAllowed => "offersAllowed"
  | .openDays => "openDays"
  | .originalId => "originalId"
  | .paymentMethods => "paymentMethods"
  | .paymentTerms => "paymentTerms"
  | .postalCode => "postalCode"
  | .quantity => "quantity"
  | .republish => "republish"
  | .saleMethod => "saleMethod"
  | .startingPrice => "startingPrice"
  | .status => "status"
  | .title => "title"
  | .vat => "vat"

/-- The body key `edit_item` assigns to each parameter (the dict at lines
716-743).  It also carries the trailing space on the delivery-methods key,
but uses snake_case for three keys where `create_item` uses camelCase. -/
def editItemKeyOf : ItemParam → String
  | .buyNowPrice => "buyNowPrice"
  | .categoryId => "categoryId"
  | .closingTime => "closingTime"
  | .condition => "condition"
  | .deliveryMethods => "deliveryMethods "
  | .deliveryTerms => "deliveryTerms"
  | .description => "description"
  | .identificationRequired => "identificationRequired"
  | .isLocationAbroad => "isLocationAbroad"
  | .listTime => "listTime"
  | .marginalTax => "marginalTax"
  | .minimumFeedback => "minimum_feedback"
  | .minimumIncrease => "minimum_increase"
  | .offersAllowed => "offersAllowed"
  | .openDays => "openDays"
  | .originalId => "originalId"
  | .paymentMethods => "paymentMethods"
  | .paymentTerms => "paymentTerms"
  | .postalCode => "postalCode"
  | .quantity => "quantity"
  | .republish => "republish"
  | .saleMethod => "saleMethod"
  | .startingPrice => "starting_price"
  | .status => "status"
  | .title => "title"
  | .vat => "vat"

/-! ## create_item (src/huuto.py lines 483-689) -/

/-- The arguments of `create_item` with their default values.  Monetary
fields are rationals (the Python floats), date fields are the raw strings.
The fields carry exactly the types the `is_type` calls at lines 556-562
expect, so those checks pass by construction and the claims below are
about the value-level validations. -/
structure CreateItemArgs where
  buy_now_price : Option Rat := none
  category_id : Option Int := none
  closing_time : Option String := none
  condition : Option String := none
  delivery_methods : Option (List String) := none
  delivery_terms : Option String := none
  description : Option String := none
  identification_required : Option Int := none
  is_location_abroad : Option Int := none
  list_time : Option String := none
  marginal_tax : Option Int := none
  minimum_feedback : Option Int := none
  minimum_increase : Option Rat := none
  open_days : Option Int := none
  original_id : Option Int := none
  payment_methods : Option (List String) := none
  payment_terms : Option String := none
  postal_code : Option String := none
  quantity : Int := 1
  republish : Option Int := none
  sale_method : Option String := none
  starting_price : Option Rat := none
  status : String := "preview"
  title : Option String := none
  vat : Option Int := none
  offers_allowed : Option Int := none
deriving DecidableEq, Repr

def acceptedConditions : List String :=
  ["new", "like-new", "good", "acceptable", "weak"]

def deliveryOptions : List String := ["pickup", "shipment"]

def paymentOptions : List String := ["wire-transfer", "cash", "mobile-pay"]

def zeroOneInt : List Int := [0, 1]

def zeroOneRat : List Rat := [0, 1]

/-! The request-body dict of `create_item` (lines 657-684), with the float
coercions of lines 551-553 applied; `quantity` and `status` always carry a
value.  The `None`-valued entries are dropped at line 687 before the POST.
The dict is transcribed in source order, split into four sublists purely to
keep elaboration fast. -/

def create_item_data1 (a : CreateItemArgs) : List (String × Option PyVal) :=
  [(createItemKeyOf .buyNowPrice, (coerceMoney a.buy_now_price).map PyVal.r),
   (createItemKeyOf .categoryId, a.category_id.map PyVal.i),
   (createItemKeyOf .closingTime, a.closing_time.map PyVal.s),
   (createItemKeyOf .condition, a.condition.map PyVal.s),
   (createItemKeyOf .deliveryMethods, a.delivery_methods.map PyVal.strs),
   (createItemKeyOf .deliveryTerms, a.delivery_terms.map PyVal.s),
   (createItemKeyOf .description, a.description.map PyVal.s)]

def create_item_data2 (a : CreateItemArgs) : List (String × Option PyVal) :=
  [(createItemKeyOf .identificationRequired,
     a.identification_required.map PyVal.i),
   (createItemKeyOf .isLocationAbroad, a.is_location_abroad.map PyVal.i),
   (createItemKeyOf .listTime, a.list_time.map PyVal.s),
   (createItemKeyOf .marginalTax, a.marginal_tax.map PyVal.i),
   (createItemKeyOf .minimumFeedback, a.minimum_feedback.map PyVal.i),
   (createItemKeyOf .minimumIncrease,
     (coerceMoney a.minimum_increase).map PyVal.r),
   (createItemKeyOf .offersAllowed, a.offers_allowed.map PyVal.i)]

def create_item_data3 (a : CreateItemArgs) : List (String × Option PyVal) :=
  [(createItemKeyOf .openDays, a.open_days.map PyVal.i),
   (createItemKeyOf .originalId, a.original_id.map PyVal.i),
   (createItemKeyOf .paymentMethods, a.payment_methods.map PyVal.strs),
   (createItemKeyOf .paymentTerms, a.payment_terms.map PyVal.s),
   (createItemKeyOf .postalCode, a.postal_code.map PyVal.s),
   (createItemKeyOf .quantity, some (PyVal.i a.quantity)),
   (createItemKeyOf .republish, a.republish.map PyVal.i)]

def create_item_data4 (a : CreateItemArgs) : List (String × Option PyVal) :=
  [(createItemKeyOf .saleMethod, a.sale_method.map PyVal.s),
   (createItemKeyOf .startingPrice,
     (coerceMoney a.starting_price).map PyVal.r),
   (createItemKeyOf .status, some (PyVal.s a.status)),
   (createItemKeyOf .title, a.title.map PyVal.s),
   (createItemKeyOf .vat, a.vat.map PyVal.i)]

/-- The full request-body dict of `create_item`, in source order. -/
def create_item_data (a : CreateItemArgs) : List (String × Option PyVal) :=
  create_item_data1 a ++ create_item_data2 a ++ create_item_data3 a ++
    create_item_data4 a

/-- What one `create_item` call produces: a raised exception, the bare
`return False` of the malformed-date branches (lines 576 and 599), or the
POST of the assembled body to `/items`. -/
inductive CreateItemResult where
  | err (e : PyError)
  | returnedFalse
  | sent (body : List (String × PyVal))
deriving DecidableEq, Repr

def isSentResult : CreateItemResult → Bool
  | .sent _ => true
  | _ => false

def isErrResult : CreateItemResult → Bool
  | .err _ => true
  | _ => false

/-! ## The validation pipeline of create_item (lines 546-656)

The Python function is a straight-line sequence of guarded `raise` and
`return False` statements followed by the POST; the first failing guard
aborts the call.  It is embedded as the ordered list of those guards, each
paired with its failure, consumed by a first-failure fold.  The coercions
of lines 551-553 are inlined as `coerceMoney`; the `is_type` checks of
lines 556-562 and the `isinstance` check on `quantity` at line 628 hold by
construction because the argument structure is typed. -/

/-- Failure of one validation statement: a raised exception, or the bare
`return False` of the malformed-date branches (lines 576 and 599). -/
inductive CheckFail where
  | raised (e : PyError)
  | retFalse
deriving DecidableEq, Repr

def toResult : CheckFail → CreateItemResult
  | .raised e => .err e
  | .retFalse => .returnedFalse

/-- One guarded abort statement: when the guard holds, the call fails with
the given failure, otherwise execution continues. -/
def check (p : Prop) [Decidable p] (f : CheckFail) : Option CheckFail :=
  if p then some f else none

/-- The first failure in a sequence of check outcomes: in Python, the
first `raise` or `return` aborts the function. -/
def firstFail : List (Option CheckFail) → Option CheckFail
  | [] => none
  | some f :: _ => some f
  | none :: xs => firstFail xs

theorem firstFail_eq_none {l : List (Option CheckFail)}
    (h : firstFail l = none) : ∀ x ∈ l, x = none := by
  induction l with
  | nil => intro x hx; cases hx
  | cons y xs ih =>
    intro x hx
    cases y with
    | some f => simp [firstFail] at h
    | none =>
      cases hx with
      | head => rfl
      | tail _ hmem => exact ih h x hmem

theorem check_none {p : Prop} [Decidable p] {f : CheckFail}
    (h : check p f = none) : ¬ p := fun hp => by
  unfold check at h
  rw [if_pos hp] at h
  exact Option.noConfusion h

/-- Lines 567-599: condition enum, closing_time format, delivery-method
enum, identification_required flag, is_location_abroad flag, the
postal-code requirement, and list_time format, in source order. -/
def create_item_checks1 (a : CreateItemArgs) : List (Option CheckFail) :=
  [check (truthyOptStr a.condition = true ∧
      a.condition.getD "" ∉ acceptedConditions)
     (.raised (.valueError "condition must be one of the accepted values")),
   check (truthyOptStr a.closing_time = true ∧
      matchesDateFormat (a.closing_time.getD "") = false)
     .retFalse,
   check (truthyOptList a.delivery_methods = true ∧
      ¬ ∀ dm ∈ a.delivery_methods.getD [], dm ∈ deliveryOptions)
     (.raised (.valueError "delivery_methods must be pickup or shipment.")),
   check (truthyOptInt a.identification_required = true ∧
      a.identification_required.getD 0 ∉ zeroOneInt)
     (.raised (.valueError "identification_required must be 0 or 1")),
   check (a.is_location_abroad.isSome = true ∧
      a.is_location_abroad.getD 0 ∉ zeroOneInt)
     (.raised (.valueError "is_location_abroad must be 0 or 1")),
   check (a.is_location_abroad = some 0 ∧ a.postal_code = none)
     (.raised
       (.valueError "postal_code can not be empty if is_location_abroad=0")),
   check (truthyOptStr a.list_time = true ∧
      matchesDateFormat (a.list_time.getD "") = false)
     .retFalse]

/-- Lines 601-633: the list_time/closing_time pairing, the
list_time-versus-open_days alternative (in Python `not a != b`, i.e. a
raise when the two truthinesses agree), marginal_tax, minimum_increase
(checked after coercion), offers_allowed, payment-method enum, and
republish. -/
def create_item_checks2 (a : CreateItemArgs) : List (Option CheckFail) :=
  [check (truthyOptStr a.list_time ≠ truthyOptStr a.closing_time)
     (.raised (.valueError "Must set both list_time and closing_time.")),
   check (truthyOptStr a.list_time = truthyOptInt a.open_days)
     (.raised
       (.valueError "Must set either list_time/closing_time or open_days.")),
   check (truthyOptInt a.marginal_tax = true ∧
      a.marginal_tax.getD 0 ∉ zeroOneInt)
     (.raised (.valueError "marginal_tax must be 0 or 1")),
   check (truthyOptRat (coerceMoney a.minimum_increase) = true ∧
      (coerceMoney a.minimum_increase).getD 0 ∉ zeroOneRat)
     (.raised (.valueError "minimum_increase must be 0 or 1")),
   check (truthyOptInt a.offers_allowed = true ∧
      a.offers_allowed.getD 0 ∉ zeroOneInt)
     (.raised (.valueError "offers_allowed must be 0 or 1")),
   check (truthyOptList a.payment_methods = true ∧
      ¬ ∀ pm ∈ a.payment_methods.getD [], pm ∈ paymentOptions)
     (.raised (.valueError
       "payment_methods must contain wire-transfer, cash and/or mobile-pay.")),
   check (truthyOptInt a.republish = true ∧
      a.republish.getD 0 ∉ zeroOneInt)
     (.raised (.valueError "republish must be 0 or 1"))]

/-- Lines 636-654: sale-method enum (a missing sale_method also fails the
membership test, exactly as `None not in [...]` does), the
buy_now_price/minimum_increase/starting_price requirements against the
coerced values, the creation status enum, and the vat range
(`range(0, 100)`, so 0 to 99). -/
def create_item_checks3 (a : CreateItemArgs) : List (Option CheckFail) :=
  [check (a.sale_method.getD "" ∉ (["auction", "buy-now"] : List String))
     (.raised (.valueError "sale_method must be auction or buy-now.")),
   check (a.sale_method = some "buy-now" ∧ coerceMoney a.buy_now_price = none)
     (.raised
       (.valueError "Must set buy_now_price when using sale_method=buy-now.")),
   check (a.sale_method = some "buy-now" ∧
      coerceMoney a.minimum_increase ≠ none)
     (.raised (.valueError
       "Must set minimum_increase only available for sale_method=auction.")),
   check (a.sale_method = some "auction" ∧ coerceMoney a.starting_price = none)
     (.raised
       (.valueError "Must set starting_price when using sale_method=auction.")),
   check (a.status ∉ (["draft", "preview"] : List String))
     (.raised (.valueError "status must be draft or preview.")),
   check (truthyOptInt a.vat = true ∧
      ¬ (0 ≤ a.vat.getD 0 ∧ a.vat.getD 0 < 100))
     (.raised (.valueError "vat must be between 0 - 100"))]

/-- All validation checks of `create_item`, in source order. -/
def create_item_checks (a : CreateItemArgs) : List (Option CheckFail) :=
  create_item_checks1 a ++ create_item_checks2 a ++ create_item_checks3 a

/-- `create_item` (lines 483-689): the first failing validation aborts the
call; when every check passes, the body dict is assembled, its `None`
entries dropped, and the POST to `/items` is made. -/
def create_item (a : CreateItemArgs) : CreateItemResult :=
  match firstFail (create_item_checks a) with
  | some f => toResult f
  | none => .sent (dropNones (create_item_data a))

/-- Reaching the POST at line 689 means every validation was passed; in
particular the five checks the claims are about were all false. -/
theorem create_item_sent_inv (a : CreateItemArgs)
    (b : List (String × PyVal)) (h : create_item a = CreateItemResult.sent b) :
    ¬ (a.sale_method = some "auction" ∧ coerceMoney a.starting_price = none) ∧
    ¬ (a.sale_method = some "buy-now" ∧ coerceMoney a.buy_now_price = none) ∧
    ¬ (a.is_location_abroad = some 0 ∧ a.postal_code = none) ∧
    ¬ (truthyOptStr a.closing_time = true ∧
        matchesDateFormat (a.closing_time.getD "") = false) ∧
    ¬ (truthyOptStr a.list_time = true ∧
        matchesDateFormat (a.list_time.getD "") = false) := by
  unfold create_item at h
  cases hf : firstFail (create_item_checks a) with
  | some f =>
    rw [hf] at h
    cases f <;> exact CreateItemResult.noConfusion h
  | none =>
    have hall := firstFail_eq_none hf
    have hAuction : check (a.sale_method = some "auction" ∧
        coerceMoney a.starting_price = none)
        (.raised (.valueError
          "Must set starting_price when using sale_method=auction.")) = none :=
      hall _ (by simp [create_item_checks, create_item_checks1,
        create_item_checks2, create_item_checks3])
    have hBuyNow : check (a.sale_method = some "buy-now" ∧
        coerceMoney a.buy_now_price = none)
        (.raised (.valueError
          "Must set buy_now_price when using sale_method=buy-now.")) = none :=
      hall _ (by simp [create_item_checks, create_item_checks1,
        create_item_checks2, create_item_checks3])
    have hPostal : check (a.is_location_abroad = some 0 ∧
        a.postal_code = none)
        (.raised (.valueError
          "postal_code can not be empty if is_location_abroad=0")) = none :=
      hall _ (by simp [create_item_checks, create_item_checks1,
        create_item_checks2, create_item_checks3])
    have hClosing : check (truthyOptStr a.closing_time = true ∧
        matchesDateFormat (a.closing_time.getD "") = false)
        .retFalse = none :=
      hall _ (by simp [create_item_checks, create_item_checks1,
        create_item_checks2, create_item_checks3])
    have hList : check (truthyOptStr a.list_time = true ∧
        matchesDateFormat (a.list_time.getD "") = false)
        .retFalse = none :=
      hall _ (by simp [create_item_checks, create_item_checks1,
        create_item_checks2, create_item_checks3])
    exact ⟨check_none hAuction, check_none hBuyNow, check_none hPostal,
      check_none hClosing, check_none hList⟩

/-! ## list_items (src/huuto.py lines 831-912)

The item search: five enum validations (the `is_type` checks at lines
883-886 hold by construction), the float coercion of `price_min` and
`price_max` (lines 889-890), then the query-parameter dict (lines 893-910)
handed to the GET.  The `requests` library omits `None`-valued parameters
from the URL it builds, i.e. the query actually sent is `dropNones` of the
dict.  The dict is transcribed in source order, split into three sublists
purely to keep elaboration fast. -/

structure ListItemsArgs where
  addtime : Option String := none
  area : Option String := none
  biddernro : Option Int := none
  category : Option String := none
  classification : Option String := none
  closingtime : Option String := none
  feedback_limit : Option Int := none
  limit : Option Int := none
  page : Option Int := none
  price_max : Option Rat := none
  price_min : Option Rat := none
  seller_type : Option String := none
  sellernro : Option Int := none
  sellstyle : Option String := none
  sort : Option String := none
  status : Option String := none
  words : Option String := none
deriving DecidableEq, Repr

def addtimeOptions : List String :=
  ["past-day", "past-2days", "past-5days", "past-week"]

def classificationOptions : List String :=
  ["none", "new", "like-new", "good", "acceptable", "weak"]

def limitOptions : List Int := [50, 500]

def sellstyleOptions : List String := ["all", "auction", "buy-now"]

def sortOptions : List String :=
  ["hits", "newest", "closing", "lowprice", "highprice", "bidders", "title"]

def list_items_params1 (a : ListItemsArgs) : List (String × Option PyVal) :=
  [("addtime", a.addtime.map PyVal.s),
   ("area", a.area.map PyVal.s),
   ("biddernro", a.biddernro.map PyVal.i),
   ("category", a.category.map PyVal.s),
   ("classification", a.classification.map PyVal.s),
   ("closingtime", a.closingtime.map PyVal.s)]

def list_items_params2 (a : ListItemsArgs) (pmin pmax : Option Rat) :
    List (String × Option PyVal) :=
  [("feedback_limit", a.feedback_limit.map PyVal.i),
   ("limit", a.limit.map PyVal.i),
   ("page", a.page.map PyVal.i),
   ("price_min", pmin.map PyVal.r),
   ("price_max", pmax.map PyVal.r),
   ("seller_type", a.seller_type.map PyVal.s)]

def list_items_params3 (a : ListItemsArgs) : List (String × Option PyVal) :=
  [("sellernro", a.sellernro.map PyVal.i),
   ("sellstyle", a.sellstyle.map PyVal.s),
   ("sort", a.sort.map PyVal.s),
   ("status", a.status.map PyVal.s),
   ("words", a.words.map PyVal.s)]

/-- The `params` dict of `list_items` (lines 893-910), in source order,
with `pmin`/`pmax` the coerced prices. -/
def list_items_params (a : ListItemsArgs) (pmin pmax : Option Rat) :
    List (String × Option PyVal) :=
  list_items_params1 a ++ list_items_params2 a pmin pmax ++
    list_items_params3 a

/-- `list_items` (lines 831-912): the first failing enum validation raises
`ValueError`; otherwise the params dict is built (with coerced prices) and
handed to the GET. -/
def list_items (a : ListItemsArgs) :
    Except PyError (List (String × Option PyVal)) :=
  if truthyOptStr a.addtime = true ∧ a.addtime.getD "" ∉ addtimeOptions then
    .error (.valueError "addtime must be one of the accepted values")
  else if truthyOptStr a.classification = true ∧
      a.classification.getD "" ∉ classificationOptions then
    .error (.valueError "classification must be one of the accepted values")
  else if truthyOptInt a.limit = true ∧ a.limit.getD 0 ∉ limitOptions then
    .error (.valueError "limit must be either 50 or 500")
  else if truthyOptStr a.sellstyle = true ∧
      a.sellstyle.getD "" ∉ sellstyleOptions then
    .error (.valueError "sellstyle must be one of the accepted values")
  else if truthyOptStr a.sort = true ∧ a.sort.getD "" ∉ sortOptions then
    .error (.valueError "sort must be one of the accepted values")
  else
    .ok (list_items_params a (coerceMoney a.price_min)
      (coerceMoney a.price_max))

/-! ## Claims C5, C6, C7 -/

def c5ClosingArgs : CreateItemArgs := { closing_time := some "2016-11-20" }

def c5ListArgs : CreateItemArgs := { list_time := some "tomorrow" }

/-- C5 counterexample: the claim says a malformed `closing_time` makes
`create_item` fail with a typed validation error before any network call.
It does fail before any network call, but by silently returning `False`
(line 576), not by raising: here a date without a time-of-day part is
passed and the result is the bare `False`, not an error. -/
theorem c5_counterexample :
    create_item c5ClosingArgs = CreateItemResult.returnedFalse ∧
      isErrResult (create_item c5ClosingArgs) = false := by
  decide

/-- C5 (amended): when `closing_time` or `list_time` is provided and does
not match the fixed pattern, `create_item` never reaches the network; when
no earlier check fails first it returns the bare `False` rather than
raising a typed validation error (shown on concrete calls whose only flaw
is the malformed date). -/
theorem c5_bad_date_returns_false :
    (∀ (a : CreateItemArgs) (b : List (String × PyVal)),
        truthyOptStr a.closing_time = true →
        matchesDateFormat (a.closing_time.getD "") = false →
        create_item a ≠ CreateItemResult.sent b) ∧
    (∀ (a : CreateItemArgs) (b : List (String × PyVal)),
        truthyOptStr a.list_time = true →
        matchesDateFormat (a.list_time.getD "") = false →
        create_item a ≠ CreateItemResult.sent b) ∧
    create_item c5ClosingArgs = CreateItemResult.returnedFalse ∧
    create_item c5ListArgs = CreateItemResult.returnedFalse := by
  refine ⟨?_, ?_, by decide, by decide⟩
  · intro a b ht hm h
    exact (create_item_sent_inv a b h).2.2.2.1 ⟨ht, hm⟩
  · intro a b ht hm h
    exact (create_item_sent_inv a b h).2.2.2.2 ⟨ht, hm⟩

/-- C5 witness: a call whose closing time is malformed satisfies the
hypotheses and sends nothing. -/
theorem c5_witness :
    truthyOptStr c5ClosingArgs.closing_time = true ∧
    matchesDateFormat (c5ClosingArgs.closing_time.getD "") = false ∧
    create_item c5ClosingArgs ≠ CreateItemResult.sent [] :=
  ⟨by decide, by decide,
    c5_bad_date_returns_false.1 c5ClosingArgs [] (by decide) (by decide)⟩

def c6NoAbroadArgs : CreateItemArgs :=
  { open_days := some 3, sale_method := some "auction"
    starting_price := some 1 }

def c6AbroadArgs : CreateItemArgs :=
  { is_location_abroad := some 1, open_days := some 3
    sale_method := some "auction", starting_price := some 1 }

def c6ZeroAbroadArgs : CreateItemArgs :=
  { is_location_abroad := some 0, open_days := some 3
    sale_method := some "auction", starting_price := some 1 }

/-- C6 counterexample: the claim says a call without `postal_code` fails
whenever `is_location_abroad` is not set to 1.  But the check at line 591
fires only when `is_location_abroad` is explicitly 0: with
`is_location_abroad` omitted (`None`) and no postal code, validation
passes and the request is sent. -/
theorem c6_counterexample :
    c6NoAbroadArgs.postal_code = none ∧
    c6NoAbroadArgs.is_location_abroad = none ∧
    isSentResult (create_item c6NoAbroadArgs) = true := by
  decide

/-- C6 (amended): a missing `postal_code` fails validation before any
network call exactly when `is_location_abroad` is explicitly set to 0
(when it is omitted the check is skipped); with `is_location_abroad=1` and
no postal code, local validation passes and the request is sent. -/
theorem c6_postal_code_rule :
    (∀ (a : CreateItemArgs) (b : List (String × PyVal)),
        a.is_location_abroad = some 0 → a.postal_code = none →
        create_item a ≠ CreateItemResult.sent b) ∧
    create_item c6ZeroAbroadArgs = CreateItemResult.err
      (.valueError "postal_code can not be empty if is_location_abroad=0") ∧
    (c6AbroadArgs.postal_code = none ∧
      isSentResult (create_item c6AbroadArgs) = true) := by
  refine ⟨?_, by decide, by decide⟩
  intro a b h0 hp h
  exact (create_item_sent_inv a b h).2.2.1 ⟨h0, hp⟩

/-- C6 witness: a domestic item (`is_location_abroad=0`) without postal
code sends nothing. -/
theorem c6_witness :
    c6ZeroAbroadArgs.is_location_abroad = some 0 ∧
    c6ZeroAbroadArgs.postal_code = none ∧
    create_item c6ZeroAbroadArgs ≠ CreateItemResult.sent [] :=
  ⟨rfl, rfl, c6_postal_code_rule.1 c6ZeroAbroadArgs [] rfl rfl⟩

def c7AuctionArgs : CreateItemArgs :=
  { open_days := some 3, sale_method := some "auction" }

def c7BuyNowArgs : CreateItemArgs :=
  { open_days := some 3, sale_method := some "buy-now" }

/-- C7: an auction without `starting_price` and a buy-now item without
`buy_now_price` both fail validation before any network call; on concrete
otherwise-valid calls the failure is exactly the corresponding missing-price
`ValueError`. -/
theorem c7_price_required_by_sale_method :
    (∀ (a : CreateItemArgs) (b : List (String × PyVal)),
        a.sale_method = some "auction" → a.starting_price = none →
        create_item a ≠ CreateItemResult.sent b) ∧
    (∀ (a : CreateItemArgs) (b : List (String × PyVal)),
        a.sale_method = some "buy-now" → a.buy_now_price = none →
        create_item a ≠ CreateItemResult.sent b) ∧
    create_item c7AuctionArgs = CreateItemResult.err
      (.valueError "Must set starting_price when using sale_method=auction.") ∧
    create_item c7BuyNowArgs = CreateItemResult.err
      (.valueError "Must set buy_now_price when using sale_method=buy-now.") := by
  refine ⟨?_, ?_, by decide, by decide⟩
  · intro a b hs hp h
    refine (create_item_sent_inv a b h).1 ⟨hs, ?_⟩
    rw [hp]
    exact rfl
  · intro a b hs hp h
    refine (create_item_sent_inv a b h).2.1 ⟨hs, ?_⟩
    rw [hp]
    exact rfl

/-- C7 witness: the concrete auction call without a starting price sends
nothing. -/
theorem c7_witness :
    c7AuctionArgs.sale_method = some "auction" ∧
    c7AuctionArgs.starting_price = none ∧
    create_item c7AuctionArgs ≠ CreateItemResult.sent [] :=
  ⟨rfl, rfl, c7_price_required_by_sale_method.1 c7AuctionArgs [] rfl rfl⟩

/-! ## Claim C8 -/

/-- C8: `edit_item` assigns the snake_case keys `minimum_feedback`,
`minimum_increase` and `starting_price` to the parameters that
`create_item` sends as `minimumFeedback`, `minimumIncrease` and
`startingPrice`; every other shared parameter is assigned the identical
key in both body dicts. -/
theorem c8_edit_item_key_mismatch :
    (createItemKeyOf .minimumFeedback = "minimumFeedback" ∧
      editItemKeyOf .minimumFeedback = "minimum_feedback") ∧
    (createItemKeyOf .minimumIncrease = "minimumIncrease" ∧
      editItemKeyOf .minimumIncrease = "minimum_increase") ∧
    (createItemKeyOf .startingPrice = "startingPrice" ∧
      editItemKeyOf .startingPrice = "starting_price") ∧
    ∀ p : ItemParam, p ≠ .minimumFeedback → p ≠ .minimumIncrease →
      p ≠ .startingPrice → editItemKeyOf p = createItemKeyOf p := by
  decide

/-- C8 witness: the buy-now-price parameter gets the same key in both. -/
theorem c8_witness :
    editItemKeyOf ItemParam.buyNowPrice = createItemKeyOf ItemParam.buyNowPrice :=
  c8_edit_item_key_mismatch.2.2.2 ItemParam.buyNowPrice (by decide) (by decide)
    (by decide)

/-! ## Claim C10 -/

def c10AuctionZeroArgs : CreateItemArgs :=
  { open_days := some 3, sale_method := some "auction"
    starting_price := some 0 }

def c10ListArgs : ListItemsArgs := { price_min := some 0 }

/-- C10: zero monetary arguments are coerced to `None` and treated as
absent: `create_item` with `sale_method=auction` and `starting_price=0`
raises the missing-starting_price error even though a starting price was
passed, and a `list_items` call with `price_min=0` (or `price_max=0`)
omits that parameter from the query it sends. -/
theorem c10_zero_money_treated_absent :
    coerceMoney (some 0) = none ∧
    create_item c10AuctionZeroArgs = CreateItemResult.err
      (.valueError "Must set starting_price when using sale_method=auction.") ∧
    (∀ (a : ListItemsArgs) (q : List (String × Option PyVal)),
        a.price_min = some 0 → list_items a = .ok q →
        "price_min" ∉ (dropNones q).map Prod.fst) ∧
    (∀ (a : ListItemsArgs) (q : List (String × Option PyVal)),
        a.price_max = some 0 → list_items a = .ok q →
        "price_max" ∉ (dropNones q).map Prod.fst) := by
  refine ⟨rfl, by decide, ?_, ?_⟩
  · intro a q h0 hq
    unfold list_items at hq
    split_ifs at hq
    injection hq with hq
    subst hq
    rw [mem_keys_dropNones, h0]
    have hfalse : keyHasValue "price_min" (list_items_params a
        (coerceMoney (some 0)) (coerceMoney a.price_max)) = false := rfl
    rw [hfalse]
    exact fun hx => Bool.noConfusion hx
  · intro a q h0 hq
    unfold list_items at hq
    split_ifs at hq
    injection hq with hq
    subst hq
    rw [mem_keys_dropNones, h0]
    have hfalse : keyHasValue "price_max" (list_items_params a
        (coerceMoney a.price_min) (coerceMoney (some 0))) = false := rfl
    rw [hfalse]
    exact fun hx => Bool.noConfusion hx

/-- C10 witness: a search with `price_min=0` sends a query without a
price_min parameter. -/
theorem c10_witness :
    c10ListArgs.price_min = some 0 ∧
    "price_min" ∉ (dropNones (list_items_params c10ListArgs
      (coerceMoney c10ListArgs.price_min)
      (coerceMoney c10ListArgs.price_max))).map Prod.fst :=
  ⟨rfl, c10_zero_money_treated_absent.2.2.1 c10ListArgs _ rfl rfl⟩

end Huuto
